import Mathlib

/-!
Verification of `india_compliance/gst_india/doctype/gstin/gstin.py`.

A shallow embedding of the GSTIN status module: the refresh policy
(`is_status_refresh_required`), the date-consistency validator
(`_validate_gstin_info`), the `before_save` document hook, the API fetch
wrapper (`_get_gstin_info`) with its TTL cache effects, and the transporter
ID validation flow (`validate_gst_transporter_id`).

Framework calls (document store, cache, job queue, loggers) are modelled by
explicit state passing; calendar dates are modelled as proleptic Gregorian
dates with a day-count conversion so that `frappe.utils.date_diff` becomes
integer subtraction of day numbers.
-/

namespace Gstin

/-- A calendar date (proleptic Gregorian). `frappe` passes dates around as
`datetime.date` values; only ordering and day differences are ever used. -/
structure Date where
  year : Nat
  month : Nat
  day : Nat
deriving DecidableEq, Repr

/-- Gregorian leap-year rule. -/
def Date.isLeap (y : Nat) : Bool :=
  (y % 4 == 0 && y % 100 != 0) || y % 400 == 0

/-- Cumulative days before month `m` in a non-leap year (`m` is 1-based). -/
def Date.daysBeforeMonth (leap : Bool) (m : Nat) : Nat :=
  let base := [0, 0, 31, 59, 90, 120, 151, 181, 212, 243, 273, 304, 334].getD m 0
  if leap && m ≥ 3 then base + 1 else base

/-- Day number of a date counted from the proleptic year 1. -/
def Date.toDays (d : Date) : Nat :=
  let py := d.year - 1
  365 * py + py / 4 - py / 100 + py / 400
    + Date.daysBeforeMonth (Date.isLeap d.year) d.month + d.day

/-- `frappe.utils.date_diff(a, b)`: the signed number of days from `b` to `a`. -/
def date_diff (a b : Date) : Int :=
  (a.toDays : Int) - (b.toDays : Int)

/-- The framework cache (`frappe.cache`): keys with absolute expiry
timestamps, in seconds.  `set_value key v expires_in_sec` stores the key
until `now + expires_in_sec`. -/
structure Cache where
  entries : List (String × Nat)
deriving DecidableEq, Repr

/-- `frappe.cache.set_value(key, True, expires_in_sec)` at time `now`. -/
def Cache.set_value (c : Cache) (key : String) (now expires_in_sec : Nat) : Cache :=
  ⟨(key, now + expires_in_sec) :: c.entries.filter (fun e => e.1 != key)⟩

/-- `frappe.cache.get_value(key)` at time `now`: truthy while unexpired. -/
def Cache.get_value (c : Cache) (key : String) (now : Nat) : Bool :=
  match c.entries.lookup key with
  | some expiry => now < expiry
  | none => false

/-- The stored expiry timestamp of a cache key, if any. -/
def Cache.expiryOf (c : Cache) (key : String) : Option Nat :=
  c.entries.lookup key

/-- One row of `GST Settings.credentials`. -/
structure Credential where
  service : String
  gstin : String
deriving DecidableEq, Repr

/-- The `GST Settings` single doctype, restricted to the fields this module
reads.  `api_enabled` is modelled from the spec: `is_api_enabled` lives in
`gst_india.utils` (not part of this file) and reports whether the India
Compliance API is enabled in settings. -/
structure GSTSettings where
  validate_gstin_status : Bool
  api_enabled : Bool
  sandbox_mode : Bool
  gstin_status_refresh_interval : Int
  enable_e_invoice : Bool
  enable_e_waybill : Bool
  credentials : List Credential
deriving DecidableEq, Repr

/-- `get_company_gstin`: the GSTIN of the first credential row for the
"e-Waybill / e-Invoice" service, provided e-invoice is enabled. -/
def get_company_gstin (s : GSTSettings) : Option String :=
  if !s.enable_e_invoice then none
  else ((s.credentials.find? (fun row => row.service == "e-Waybill / e-Invoice")).map
    (fun row => row.gstin))

/-- Truthiness of a Python value that is either `None` or a `bool`. -/
def truthy : Option Bool → Bool
  | some b => b
  | none => false

/-- Truthiness of a Python value that is either `None` or a string
(empty strings are falsy). -/
def strTruthy : Option String → Bool
  | some s => s != ""
  | none => false

/-- The projection of a stored GSTIN document read by the refresh policy
(`frappe.db.get_value("GSTIN", gstin, ["last_updated_on", "status"])`). -/
structure RefreshDoc where
  last_updated_on : Date
  status : String
deriving DecidableEq, Repr

/-- The guard of `is_status_refresh_required`: validation disabled, API
disabled, sandbox mode, or the per-GSTIN suppression key in the cache. -/
def refreshSuppressed (settings : GSTSettings) (cache : Cache) (nowSec : Nat)
    (gstin : String) : Bool :=
  !settings.validate_gstin_status || !settings.api_enabled
    || settings.sandbox_mode || cache.get_value gstin nowSec

/-- `is_status_refresh_required(gstin, transaction_date)`.

State is passed explicitly: `cache`/`nowSec` model `frappe.cache`,
`nowDate` models the date of `get_datetime()`, and `doc` models the result
of the `frappe.db.get_value` lookup for `gstin`.  The Python function
returns `None` (suppressed), `True`, or `False`; we return `Option Bool`
with `none` for `None`. -/
def is_status_refresh_required (settings : GSTSettings) (cache : Cache)
    (nowSec : Nat) (nowDate : Date) (gstin : String)
    (transaction_date : Option Date) (doc : Option RefreshDoc) : Option Bool :=
  if refreshSuppressed settings cache nowSec gstin then
    none
  else
    match doc with
    | none => some true
    | some d =>
      if transaction_date.isNone then some false
      else if d.status != "Active" && d.status != "Cancelled" then some true
      else some (date_diff nowDate d.last_updated_on ≥ settings.gstin_status_refresh_interval)

/-- The value of the `is_blocked` field: either a response code string
("U"/"B") or an integer already normalised by a previous save. -/
inductive Blocked where
  | code (s : String)
  | num (n : Nat)
deriving DecidableEq, Repr

/-- `GSTIN_BLOCK_STATUS.get(v, 0)`: "U" ↦ 0, "B" ↦ 1, anything else ↦ 0. -/
def gstinBlockStatus : Blocked → Nat
  | .code "U" => 0
  | .code "B" => 1
  | _ => 0

/-- `GSTIN_STATUS.get(s, s)`: map API status codes to display names,
leaving unknown values unchanged. -/
def gstinStatusName (s : String) : String :=
  match s with
  | "ACT" => "Active"
  | "CNL" => "Cancelled"
  | "INA" => "Inactive"
  | "PRO" => "Provisional"
  | "SUS" => "Suspended"
  | _ => s

/-- A stored GSTIN document.  Unset string fields are modelled as `""`
(both `None` and `""` are falsy in the source). -/
structure GstinDoc where
  gstin : String
  status : String
  is_blocked : Blocked
  registration_date : Option Date
  cancelled_date : Option Date
  last_updated_on : Option Date
  transporter_id_status : Option String
deriving DecidableEq, Repr

/-- `GSTIN.before_save`: normalise status and block flag, stamp
`last_updated_on`, and backfill `cancelled_date` from `registration_date`
for cancelled GSTINs. -/
def before_save (doc : GstinDoc) (nowDate : Date) : GstinDoc :=
  let doc := { doc with
    status := gstinStatusName doc.status,
    is_blocked := .num (gstinBlockStatus doc.is_blocked),
    last_updated_on := some nowDate }
  if doc.cancelled_date.isNone && doc.status == "Cancelled" then
    { doc with cancelled_date := doc.registration_date }
  else
    doc

/-- The reason a validation failed (which message `_throw` was given). -/
inductive VFail where
  | registrationMissing
  | beforeRegistration
  | onOrAfterCancellation
  | statusInvalid
  | transporterInactive
deriving DecidableEq, Repr

/-- Outcome of a validator call: pass silently, raise a user-facing error
(`frappe.throw`), or log a recoverable error (`frappe.log_error`). -/
inductive VOutcome where
  | pass
  | raised (f : VFail)
  | logged (f : VFail)
deriving DecidableEq, Repr

/-- `_throw` inside the validators: raise when `throw` is set, log otherwise. -/
def vthrow (throw : Bool) (f : VFail) : VOutcome :=
  if throw then .raised f else .logged f

/-- `_validate_gstin_info(gstin_doc, transaction_date, throw)`.

`nowDate` models the current date: `frappe.utils.date_diff` applies
`getdate` to its arguments, and `getdate(None)` yields today's date, which
is what the cancellation comparison sees when `cancelled_date` is unset. -/
def _validate_gstin_info (gstin_doc : Option GstinDoc) (transaction_date : Option Date)
    (throw : Bool) (nowDate : Date) : VOutcome :=
  match gstin_doc, transaction_date with
  | some doc, some tx =>
    match doc.registration_date with
    | none => vthrow throw .registrationMissing
    | some reg =>
      if date_diff tx reg < 0 then
        vthrow throw .beforeRegistration
      else if doc.status == "Cancelled"
          && date_diff tx (doc.cancelled_date.getD nowDate) ≥ 0 then
        vthrow throw .onOrAfterCancellation
      else if doc.status != "Active" && doc.status != "Cancelled" then
        vthrow throw .statusInvalid
      else
        .pass
  | _, _ => .pass

/-- `_validate_gst_transporter_id_info(transporter_id_info, ..., throw)`:
warn when the transporter status is anything but "Active". -/
def _validate_gst_transporter_id_info (info : Option GstinDoc) (throw : Bool) : VOutcome :=
  match info with
  | none => .pass
  | some d =>
    if d.transporter_id_status != some "Active" then vthrow throw .transporterInactive
    else .pass

/-- Classification of an exception raised by an API client:
`gspServerError` is `india_compliance.exceptions.GSPServerError`. -/
inductive ApiErr where
  | gspServerError
  | otherError
deriving DecidableEq, Repr

/-- An exception that escapes the embedded functions: `validate_gstin`
raising before the `try` block of `_get_gstin_info`, or an API exception
propagating out of `get_transporter_id_info` (which has no `try`). -/
inductive PyErr where
  | invalidGstin
  | api (e : ApiErr)
deriving DecidableEq, Repr

/-- The response of `PublicAPI().get_gstin_info`.  `rgdt`/`cxdt` carry the
result of `parse_datetime(..., day_first=True, throw=False)` (they are
dates or `None`), and `sts` the raw status string. -/
structure PublicResp where
  gstin : String
  rgdt : Option Date
  cxdt : Option Date
  sts : String
deriving DecidableEq, Repr

/-- The response of `EInvoiceAPI(...).get_gstin_info`.  `DtReg`/`DtDReg`
carry the result of `parse_datetime(..., throw=False)`. -/
structure EInvResp where
  DtReg : Option Date
  DtDReg : Option Date
  Status : String
  BlkStatus : String
deriving DecidableEq, Repr

/-- The canonical record built by `_get_gstin_info`.  `is_blocked = none`
means the key is absent from the dict (the public API shape has no
`is_blocked` key); `some s` means the key is present with value `s`. -/
structure GstinInfo where
  gstin : String
  registration_date : Option Date
  cancelled_date : Option Date
  status : String
  is_blocked : Option String
deriving DecidableEq, Repr

/-- `get_formatted_response(response)`: normalise a Public API response. -/
def get_formatted_response (r : PublicResp) : GstinInfo :=
  { gstin := r.gstin
    registration_date := r.rgdt
    cancelled_date := r.cxdt
    status := r.sts
    is_blocked := none }

/-- An API call issued during a fetch. -/
inductive ApiCall where
  | publicCall (gstin : String)
  | eInvoiceCall (company gstin : String)
  | eWaybillCall (company tid : String)
deriving DecidableEq, Repr

/-- The external collaborators of the fetch path: `validate_gstin` is
modelled from the spec as an abstract validity predicate on GSTIN strings
(it lives in `gst_india.utils` and raises on invalid input); the two API
clients are oracles that either answer or raise a classified exception. -/
structure FetchEnv where
  valid_gstin : String → Bool
  publicApi : String → Except ApiErr PublicResp
  eInvoiceApi : String → String → Except ApiErr EInvResp

/-- Result of `_get_gstin_info`: the returned value (or the propagated
exception), the cache after the call, whether `frappe.log_error` ran, and
the API calls issued. -/
structure FetchOut where
  result : Except PyErr (Option GstinInfo)
  cache : Cache
  errorLogged : Bool
  apiCalls : List ApiCall
deriving Repr

/-- `_get_gstin_info(gstin=..., response=..., use_public_api=...)`.

The `finally` clause sets the per-GSTIN suppression key for 180 seconds on
every exit path of the `try` block; on an exception the error is logged,
the function falls through to return `None`, and a `GSPServerError`
additionally sets the `gst_server_error` circuit breaker for 60 seconds.
A pre-supplied `response` returns before the `try` block, and a failed
`validate_gstin` raises before it, so neither touches the cache. -/
def _get_gstin_info (env : FetchEnv) (settings : GSTSettings) (cache : Cache)
    (now : Nat) (gstin : String) (response : Option PublicResp)
    (use_public_api : Bool) : FetchOut :=
  match response with
  | some r => ⟨.ok (some (get_formatted_response r)), cache, false, []⟩
  | none =>
    if !env.valid_gstin gstin then
      ⟨.error .invalidGstin, cache, false, []⟩
    else
      let fin := fun (c : Cache) => c.set_value gstin now 180
      if cache.get_value "gst_server_error" now then
        ⟨.ok none, fin cache, false, []⟩
      else
        let company_gstin := get_company_gstin settings
        let onErr := fun (e : ApiErr) (calls : List ApiCall) =>
          let c := if e = .gspServerError
            then cache.set_value "gst_server_error" now 60 else cache
          ⟨.ok none, fin c, true, calls⟩
        match company_gstin, use_public_api with
        | none, _ | some _, true =>
          match env.publicApi gstin with
          | .ok r => ⟨.ok (some (get_formatted_response r)), fin cache, false,
              [.publicCall gstin]⟩
          | .error e => onErr e [.publicCall gstin]
        | some cg, false =>
          match env.eInvoiceApi cg gstin with
          | .ok r => ⟨.ok (some
              { gstin := gstin
                registration_date := r.DtReg
                cancelled_date := r.DtDReg
                status := r.Status
                is_blocked := some r.BlkStatus }), fin cache, false,
              [.eInvoiceCall cg gstin]⟩
          | .error e => onErr e [.eInvoiceCall cg gstin]

/-- The document store and the cache, threaded through the stateful flows. -/
structure World where
  db : List (String × GstinDoc)
  cache : Cache
deriving Repr

/-- The response of `get_transporter_id_info`. -/
structure TranspResp where
  gstin : String
  transporter_id_status : String
deriving DecidableEq, Repr

/-- The e-waybill API oracle: given the company GSTIN and the transporter
id, either raise, return a falsy response (`none`), or report the
truthiness of the `transin` field of the response. -/
def EwbOracle : Type := String → String → Except ApiErr (Option Bool)

/-- `get_transporter_id_info(transporter_id)`: requires e-waybill enabled
and a company GSTIN; classifies the transporter as "Active" iff the
response's `transin` is truthy.  API exceptions propagate (no `try`). -/
def get_transporter_id_info (settings : GSTSettings) (ewb : EwbOracle)
    (transporter_id : String) : Except ApiErr (Option TranspResp) :=
  if !settings.enable_e_waybill then .ok none
  else
    match get_company_gstin settings with
    | none => .ok none
    | some cg =>
      match ewb cg transporter_id with
      | .error e => .error e
      | .ok none => .ok none
      | .ok (some transin) =>
        .ok (some ⟨transporter_id, if transin then "Active" else "Invalid"⟩)

/-- A fresh `frappe.new_doc("GSTIN")`: every field unset. -/
def newGstinDoc : GstinDoc :=
  { gstin := ""
    status := ""
    is_blocked := .num 0
    registration_date := none
    cancelled_date := none
    last_updated_on := none
    transporter_id_status := none }

/-- `doc.update(response)` for a GSTIN info response (the `gstin` key has
been popped for existing docs and is handled by the caller).  An absent
`is_blocked` key (public API shape) leaves the field untouched. -/
def applyInfo (doc : GstinDoc) (r : GstinInfo) : GstinDoc :=
  { doc with
    registration_date := r.registration_date
    cancelled_date := r.cancelled_date
    status := r.status
    is_blocked := match r.is_blocked with
      | some s => .code s
      | none => doc.is_blocked }

/-- `doc.update(response)` for a transporter id response. -/
def applyTransp (doc : GstinDoc) (r : TranspResp) : GstinDoc :=
  { doc with transporter_id_status := some r.transporter_id_status }

/-- `doc.save(ignore_permissions=True)` persisted into the store. -/
def dbUpsert (db : List (String × GstinDoc)) (key : String) (doc : GstinDoc) :
    List (String × GstinDoc) :=
  (key, doc) :: db.filter (fun e => e.1 != key)

/-- Load-or-create by the response's gstin, apply the field updates, run
`before_save`, and persist. -/
def saveDoc (w : World) (nowDate : Date) (respGstin : String)
    (upd : GstinDoc → GstinDoc) : GstinDoc × World :=
  let base := match w.db.lookup respGstin with
    | some doc => doc
    | none => { newGstinDoc with gstin := respGstin }
  let doc := before_save (upd base) nowDate
  (doc, { w with db := dbUpsert w.db doc.gstin doc })

/-- Which function is passed as `callback` to `create_or_update_gstin_status`. -/
inductive CallbackKind where
  | noCallback
  | onGstinInfo
  | onTransporterInfo
deriving DecidableEq, Repr

/-- `callback(doc, transaction_date)`: the call sites pass the validators
with their default `throw=False`. -/
def runCallback (k : CallbackKind) (doc : GstinDoc) (transaction_date : Option Date)
    (nowDate : Date) : VOutcome :=
  match k with
  | .noCallback => .pass
  | .onGstinInfo => _validate_gstin_info (some doc) transaction_date false nowDate
  | .onTransporterInfo => _validate_gst_transporter_id_info (some doc) false

/-- Result of `create_or_update_gstin_status`: the saved doc (or `None`),
the new world, and the callback's outcome. -/
structure CuOut where
  doc : Option GstinDoc
  world : World
  callbackOutcome : VOutcome
deriving Repr

/-- `create_or_update_gstin_status(...)`: fetch (transporter or GSTIN
path), return `None` on an empty response, otherwise upsert and run the
callback on the saved doc. -/
def create_or_update_gstin_status (env : FetchEnv) (settings : GSTSettings)
    (ewb : EwbOracle) (w : World) (nowSec : Nat) (nowDate : Date)
    (gstin : String) (response : Option PublicResp) (transaction_date : Option Date)
    (callback : CallbackKind) (use_public_api is_transporter_id : Bool) :
    Except PyErr CuOut :=
  if is_transporter_id then
    match get_transporter_id_info settings ewb gstin with
    | .error e => .error (.api e)
    | .ok none => .ok ⟨none, w, .pass⟩
    | .ok (some tr) =>
      let dw := saveDoc w nowDate tr.gstin (fun d => applyTransp d tr)
      .ok ⟨some dw.1, dw.2, runCallback callback dw.1 transaction_date nowDate⟩
  else
    let f := _get_gstin_info env settings w.cache nowSec gstin response use_public_api
    let w := { w with cache := f.cache }
    match f.result with
    | .error e => .error e
    | .ok none => .ok ⟨none, w, .pass⟩
    | .ok (some info) =>
      let dw := saveDoc w nowDate info.gstin (fun d => applyInfo d info)
      .ok ⟨some dw.1, dw.2, runCallback callback dw.1 transaction_date nowDate⟩

/-- An API path selected by `validate_gst_transporter_id`. -/
inductive TPath where
  | transporterApi
  | gstinApi
deriving DecidableEq, Repr

/-- The observable outcome of `validate_gst_transporter_id`. -/
inductive TOutcome where
  | returnedNone
  | passedActive
  | warned
  | attrErrorCrash
  | raisedErr (e : PyErr)
deriving DecidableEq, Repr

/-- Result of `validate_gst_transporter_id`: final world, the API paths
selected in order, and the outcome. -/
structure TOut where
  world : World
  paths : List TPath
  outcome : TOutcome
deriving Repr

/-- The tail of `validate_gst_transporter_id` after `gstin` is known to be
a doc: fall back to the transporter API when the status is not Active and
no transporter status is recorded, then warn unless one status is Active.
The fallback result is dereferenced (`gstin.status`) without a `None`
check, so a falsy fallback result is an `AttributeError`. -/
def transporterTailCheck (env : FetchEnv) (settings : GSTSettings) (ewb : EwbOracle)
    (w : World) (nowSec : Nat) (nowDate : Date) (transporter_id : String)
    (g : GstinDoc) (paths : List TPath) : TOut :=
  let finalCheck := fun (g : GstinDoc) (w : World) (paths : List TPath) =>
    if g.status == "Active" || g.transporter_id_status == some "Active" then
      TOut.mk w paths .passedActive
    else
      TOut.mk w paths .warned
  if g.status != "Active" && !(strTruthy g.transporter_id_status) then
    match create_or_update_gstin_status env settings ewb w nowSec nowDate
        transporter_id none none .onTransporterInfo false true with
    | .error e => ⟨w, paths ++ [.transporterApi], .raisedErr e⟩
    | .ok out =>
      match out.doc with
      | none => ⟨out.world, paths ++ [.transporterApi], .attrErrorCrash⟩
      | some g2 => finalCheck g2 out.world (paths ++ [.transporterApi])
  else
    finalCheck g w paths

/-- `validate_gst_transporter_id(transporter_id)`. -/
def validate_gst_transporter_id (env : FetchEnv) (settings : GSTSettings)
    (ewb : EwbOracle) (check_digit : String → Bool) (w : World) (nowSec : Nat)
    (nowDate : Date) (transporter_id : String) : TOut :=
  if transporter_id == "" then ⟨w, [], .returnedNone⟩
  else
    match w.db.lookup transporter_id with
    | some doc =>
      transporterTailCheck env settings ewb w nowSec nowDate transporter_id doc []
    | none =>
      if transporter_id.take 2 == "88" || !check_digit transporter_id then
        match create_or_update_gstin_status env settings ewb w nowSec nowDate
            transporter_id none none .onTransporterInfo false true with
        | .error e => ⟨w, [.transporterApi], .raisedErr e⟩
        | .ok out =>
          match out.doc with
          | none => ⟨out.world, [.transporterApi], .returnedNone⟩
          | some g => transporterTailCheck env settings ewb out.world nowSec nowDate
              transporter_id g [.transporterApi]
      else
        match create_or_update_gstin_status env settings ewb w nowSec nowDate
            transporter_id none none .onGstinInfo false false with
        | .error e => ⟨w, [.gstinApi], .raisedErr e⟩
        | .ok out =>
          match out.doc with
          | none => ⟨out.world, [.gstinApi], .returnedNone⟩
          | some g => transporterTailCheck env settings ewb out.world nowSec nowDate
              transporter_id g [.gstinApi]

/-! ## Concrete fixtures (used by witnesses and counterexamples) -/

/-- Fixture: settings with the API enabled and no company GSTIN configured
(e-invoice and e-waybill disabled). -/
def settingsPublic : GSTSettings where
  validate_gstin_status := true
  api_enabled := true
  sandbox_mode := false
  gstin_status_refresh_interval := 30
  enable_e_invoice := false
  enable_e_waybill := false
  credentials := []

/-- Fixture: a Public API response for an active GSTIN. -/
def respActive : PublicResp where
  gstin := "27AAACG2115R1ZN"
  rgdt := some (Date.mk 2020 1 10)
  cxdt := none
  sts := "Active"

/-- Fixture: API oracles that always succeed. -/
def envOk : FetchEnv where
  valid_gstin := fun _ => true
  publicApi := fun _ => .ok respActive
  eInvoiceApi := fun _ _ => .ok ⟨some (Date.mk 2020 1 10), none, "Active", "U"⟩

/-- Fixture: API oracles that always raise a generic exception. -/
def envErr : FetchEnv where
  valid_gstin := fun _ => true
  publicApi := fun _ => .error .otherError
  eInvoiceApi := fun _ _ => .error .otherError

/-- Fixture: API oracles that always raise `GSPServerError`. -/
def envGsp : FetchEnv where
  valid_gstin := fun _ => true
  publicApi := fun _ => .error .gspServerError
  eInvoiceApi := fun _ _ => .error .gspServerError

/-- Fixture: an e-waybill oracle whose response is falsy. -/
def ewbNone : EwbOracle := fun _ _ => .ok none

/-- Fixture: a stored inactive GSTIN record with no transporter status. -/
def inactiveDoc : GstinDoc :=
  { newGstinDoc with gstin := "05AAACG2115R1ZN", status := "Inactive" }

/-! ## Theorems -/

/-- C1: `is_status_refresh_required` returns true when no GSTIN record
exists; with a record it reports refresh needed exactly when a transaction
date was supplied and either the status is outside {Active, Cancelled} or
the days since `last_updated_on` reach the configured interval; and it
never reports refresh needed when status validation is disabled, the API
is disabled, sandbox mode is active, or the per-GSTIN suppression flag is
set in the cache. -/
theorem is_status_refresh_required_spec (settings : GSTSettings) (cache : Cache)
    (nowSec : Nat) (nowDate : Date) (gstin : String) (transaction_date : Option Date)
    (doc : Option RefreshDoc) :
    (refreshSuppressed settings cache nowSec gstin = true →
      truthy (is_status_refresh_required settings cache nowSec nowDate gstin
        transaction_date doc) = false)
    ∧ (refreshSuppressed settings cache nowSec gstin = false → doc = none →
      is_status_refresh_required settings cache nowSec nowDate gstin
        transaction_date doc = some true)
    ∧ (refreshSuppressed settings cache nowSec gstin = false → ∀ d, doc = some d →
      (truthy (is_status_refresh_required settings cache nowSec nowDate gstin
          transaction_date doc) = true
        ↔ transaction_date.isSome = true
          ∧ ((d.status ≠ "Active" ∧ d.status ≠ "Cancelled")
            ∨ date_diff nowDate d.last_updated_on
                ≥ settings.gstin_status_refresh_interval))) := by
  refine ⟨?_, ?_, ?_⟩
  · intro hs
    simp [is_status_refresh_required, hs, truthy]
  · intro hs hd
    simp [is_status_refresh_required, hs, hd]
  · intro hs d hd
    subst hd
    simp only [is_status_refresh_required, hs, Bool.false_eq_true, if_false]
    cases htx : transaction_date with
    | none => simp [truthy]
    | some tx =>
      by_cases hA : d.status = "Active"
      · simp [truthy, hA, date_diff]
      · by_cases hC : d.status = "Cancelled"
        · simp [truthy, hC, date_diff]
        · simp [truthy, hA, hC]

/-- Witness for C1 at a concrete suppressed configuration. -/
theorem is_status_refresh_required_spec_witness :
    truthy (is_status_refresh_required
      ⟨false, true, false, 30, false, false, []⟩ ⟨[]⟩ 0
      (Date.mk 2024 1 1) "27AAACG2115R1ZN" none none) = false :=
  (is_status_refresh_required_spec _ _ _ _ _ _ _).1 (by decide)

/-- C2: with `registration_date` set and a transaction date strictly
earlier than it, `_validate_gstin_info` fails with the before-registration
error. -/
theorem validate_gstin_info_before_registration (doc : GstinDoc) (tx reg : Date)
    (throw : Bool) (nowDate : Date)
    (hreg : doc.registration_date = some reg)
    (hlt : tx.toDays < reg.toDays) :
    _validate_gstin_info (some doc) (some tx) throw nowDate
      = vthrow throw .beforeRegistration := by
  have h1 : date_diff tx reg < 0 := by
    unfold date_diff; omega
  simp [_validate_gstin_info, hreg, h1]

/-- Witness for C2: registration on 2020-01-10 and a transaction on
2020-01-05 is rejected as before registration. -/
theorem validate_gstin_info_before_registration_witness :
    _validate_gstin_info
      (some { newGstinDoc with
              gstin := "24AAACC1206D1ZM"
              status := "Active"
              registration_date := some (Date.mk 2020 1 10) })
      (some (Date.mk 2020 1 5)) false (Date.mk 2024 1 1)
      = vthrow false .beforeRegistration :=
  validate_gstin_info_before_registration _ _ _ _ _ rfl (by decide)

/-- C3: a Cancelled record rejects any transaction dated on or after
`cancelled_date` (given `registration_date` set and not after the
transaction date); the cancellation day itself is rejected. -/
theorem validate_gstin_info_on_or_after_cancellation (doc : GstinDoc)
    (tx reg cd : Date) (throw : Bool) (nowDate : Date)
    (hst : doc.status = "Cancelled")
    (hreg : doc.registration_date = some reg)
    (hcd : doc.cancelled_date = some cd)
    (hrle : reg.toDays ≤ tx.toDays)
    (hcle : cd.toDays ≤ tx.toDays) :
    _validate_gstin_info (some doc) (some tx) throw nowDate
      = vthrow throw .onOrAfterCancellation := by
  have h1 : ¬ date_diff tx reg < 0 := by
    unfold date_diff; omega
  have h2 : date_diff tx cd ≥ 0 := by
    unfold date_diff; omega
  simp [_validate_gstin_info, hreg, hcd, hst, h1, h2]

/-- Witness for C3: status Cancelled with `cancelled_date` 2021-06-01
rejects a transaction on 2021-06-01 itself. -/
theorem validate_gstin_info_on_or_after_cancellation_witness :
    _validate_gstin_info
      (some { newGstinDoc with
              gstin := "24AAACC1206D1ZM"
              status := "Cancelled"
              registration_date := some (Date.mk 2020 1 1)
              cancelled_date := some (Date.mk 2021 6 1) })
      (some (Date.mk 2021 6 1)) true (Date.mk 2024 1 1)
      = vthrow true .onOrAfterCancellation :=
  validate_gstin_info_on_or_after_cancellation _ _ _ _ _ _ rfl rfl rfl
    (by decide) (by decide)

/-- C5: for any record whose status is neither Active nor Cancelled and
any supplied transaction date, `_validate_gstin_info` fails — raising when
`throw` is set (blocking path) and logging otherwise (background path). -/
theorem validate_gstin_info_fails_on_invalid_status (doc : GstinDoc) (tx : Date)
    (throw : Bool) (nowDate : Date)
    (hA : doc.status ≠ "Active") (hC : doc.status ≠ "Cancelled") :
    ∃ f, _validate_gstin_info (some doc) (some tx) throw nowDate
      = (if throw then VOutcome.raised f else VOutcome.logged f) := by
  simp only [_validate_gstin_info]
  cases hr : doc.registration_date with
  | none => exact ⟨.registrationMissing, rfl⟩
  | some reg =>
    by_cases h1 : date_diff tx reg < 0
    · exact ⟨.beforeRegistration, by simp [h1, vthrow]⟩
    · exact ⟨.statusInvalid, by simp [h1, hA, hC, vthrow]⟩

/-- `List.lookup` is unchanged by filtering out entries with a different key. -/
theorem lookup_filter_ne_key (l : List (String × Nat)) (k k2 : String) (h : k2 ≠ k) :
    (l.filter (fun e => e.1 != k)).lookup k2 = l.lookup k2 := by
  induction l with
  | nil => rfl
  | cons a t ih =>
    rcases a with ⟨ak, av⟩
    by_cases hak : ak = k
    · have hd : (ak != k) = false := by simp [hak]
      have hk2 : (k2 == k) = false := beq_eq_false_iff_ne.mpr h
      simp [List.filter_cons, List.lookup, hd, hk2, ih, hak]
    · simp [List.filter_cons, List.lookup, hak, ih]

/-- Setting a cache key stores its expiry as `now + expires_in_sec`. -/
theorem cache_expiry_set_same (c : Cache) (k : String) (now e : Nat) :
    (c.set_value k now e).expiryOf k = some (now + e) := by
  simp [Cache.set_value, Cache.expiryOf, List.lookup]

/-- Setting a cache key leaves other keys' expiries unchanged. -/
theorem cache_expiry_set_other (c : Cache) (k k2 : String) (now e : Nat)
    (h : k2 ≠ k) :
    (c.set_value k now e).expiryOf k2 = c.expiryOf k2 := by
  have hk : (k2 == k) = false := by
    simp only [beq_eq_false_iff_ne, ne_eq]
    exact h
  simp only [Cache.set_value, Cache.expiryOf, List.lookup, hk]
  exact lookup_filter_ne_key c.entries k k2 h

/-- A key is truthy in the cache before its stored expiry. -/
theorem cache_get_value_of_expiry (c : Cache) (k : String) (t ex : Nat)
    (h : c.expiryOf k = some ex) (ht : t < ex) : c.get_value k t = true := by
  unfold Cache.expiryOf at h
  unfold Cache.get_value
  rw [h]
  simp [ht]

/-- C4 is false as stated: a record saved with status Cancelled but neither
a prior `cancelled_date` nor a `registration_date` to backfill from ends up
Cancelled with an empty `cancelled_date`. -/
theorem cancelled_date_invariant_counterexample :
    (before_save { newGstinDoc with
        gstin := "05AAACG2115R1ZN"
        status := "Cancelled" } (Date.mk 2024 1 1)).status = "Cancelled"
    ∧ (before_save { newGstinDoc with
        gstin := "05AAACG2115R1ZN"
        status := "Cancelled" } (Date.mk 2024 1 1)).cancelled_date = none := by
  constructor <;> rfl

/-- C4 (amended): a record saved with status Cancelled has a non-empty
`cancelled_date` whenever it already had one or has a `registration_date`
to backfill from; when `cancelled_date` is missing, `before_save` fills it
from `registration_date`. -/
theorem before_save_cancelled_date_backfill (doc : GstinDoc) (nowDate : Date)
    (h : gstinStatusName doc.status = "Cancelled")
    (hsrc : doc.cancelled_date.isSome = true ∨ doc.registration_date.isSome = true) :
    (before_save doc nowDate).cancelled_date.isSome = true
    ∧ (doc.cancelled_date = none →
        (before_save doc nowDate).cancelled_date = doc.registration_date) := by
  cases hcd : doc.cancelled_date with
  | some cd =>
    constructor
    · simp [before_save, hcd]
    · intro hc
      exact absurd hc (by simp)
  | none =>
    have hreg : doc.registration_date.isSome = true := by
      rcases hsrc with h1 | h1
      · rw [hcd] at h1
        cases h1
      · exact h1
    constructor
    · simp [before_save, hcd, h, hreg]
    · intro _
      simp [before_save, hcd, h]

/-- Witness for the amended C4: a "CNL" record with a registration date
comes out of `before_save` with a non-empty `cancelled_date`. -/
theorem before_save_cancelled_date_backfill_witness :
    (before_save { newGstinDoc with
        gstin := "05AAACG2115R1ZN"
        status := "CNL"
        registration_date := some (Date.mk 2020 1 10) }
      (Date.mk 2024 1 1)).cancelled_date.isSome = true :=
  (before_save_cancelled_date_backfill
    { newGstinDoc with
      gstin := "05AAACG2115R1ZN"
      status := "CNL"
      registration_date := some (Date.mk 2020 1 10) }
    (Date.mk 2024 1 1) (by decide) (Or.inr (by decide))).1

/-- C6: every exception an API client raises inside `_get_gstin_info` is
caught: the error is logged, the fetch returns `None` instead of
propagating, and the per-GSTIN suppression key is set in the cache with a
180-second expiry. -/
theorem get_gstin_info_exception_handling (env : FetchEnv) (settings : GSTSettings)
    (cache : Cache) (now : Nat) (gstin : String) (use_public_api : Bool) (e : ApiErr)
    (hv : env.valid_gstin gstin = true)
    (hcb : cache.get_value "gst_server_error" now = false)
    (herr : if use_public_api || (get_company_gstin settings).isNone then
        env.publicApi gstin = .error e
      else ∀ cg, get_company_gstin settings = some cg →
        env.eInvoiceApi cg gstin = .error e) :
    ((_get_gstin_info env settings cache now gstin none use_public_api).result
        = .ok none)
    ∧ ((_get_gstin_info env settings cache now gstin none use_public_api).errorLogged
        = true)
    ∧ ((_get_gstin_info env settings cache now gstin none use_public_api).cache.expiryOf
        gstin = some (now + 180)) := by
  simp only [_get_gstin_info, hv, hcb, Bool.not_true, Bool.false_eq_true, if_false]
  cases hcg : get_company_gstin settings with
  | none =>
    rw [hcg] at herr
    simp only [Option.isNone_none, Bool.or_true, if_true] at herr
    cases use_public_api <;>
      simp [herr, cache_expiry_set_same]
  | some cg =>
    rw [hcg] at herr
    cases use_public_api with
    | true =>
      simp only [Bool.true_or, if_true] at herr
      simp [herr, cache_expiry_set_same]
    | false =>
      simp only [Option.isNone_some, Bool.false_or, if_false] at herr
      have herr2 := herr cg rfl
      simp [herr2, cache_expiry_set_same]

/-- Witness for C6: a failing public API call is caught, logged, and
suppressed for 180 seconds. -/
theorem get_gstin_info_exception_handling_witness :
    ((_get_gstin_info envErr settingsPublic ⟨[]⟩ 100 "27AAACG2115R1ZN" none
        false).result = .ok none)
    ∧ ((_get_gstin_info envErr settingsPublic ⟨[]⟩ 100 "27AAACG2115R1ZN" none
        false).errorLogged = true)
    ∧ ((_get_gstin_info envErr settingsPublic ⟨[]⟩ 100 "27AAACG2115R1ZN" none
        false).cache.expiryOf "27AAACG2115R1ZN" = some (100 + 180)) :=
  get_gstin_info_exception_handling envErr settingsPublic ⟨[]⟩ 100
    "27AAACG2115R1ZN" false .otherError rfl rfl
    (show envErr.publicApi "27AAACG2115R1ZN" = Except.error ApiErr.otherError from rfl)

/-- Witness for C5 at a Suspended record. -/
theorem validate_gstin_info_fails_on_invalid_status_witness :
    ∃ f, _validate_gstin_info
      (some { newGstinDoc with
              gstin := "24AAACC1206D1ZM"
              status := "Suspended"
              registration_date := some (Date.mk 2020 1 1) })
      (some (Date.mk 2024 1 1)) true (Date.mk 2024 1 1)
      = (if true then VOutcome.raised f else VOutcome.logged f) :=
  validate_gstin_info_fails_on_invalid_status _ _ _ _ (by decide) (by decide)

/-- C7: a `GSPServerError` fetch failure sets the `gst_server_error`
circuit-breaker key with a 60-second expiry; that key stays truthy until
60 seconds after the failure; and while the key is truthy, any fetch with
no pre-supplied response that passes GSTIN validation returns `None`
without issuing a single API call. -/
theorem gsp_server_error_circuit_breaker (env : FetchEnv) (settings : GSTSettings)
    (cache : Cache) (now : Nat) (gstin : String) (use_public_api : Bool)
    (hg : gstin ≠ "gst_server_error")
    (hv : env.valid_gstin gstin = true)
    (hcb : cache.get_value "gst_server_error" now = false)
    (herr : if use_public_api || (get_company_gstin settings).isNone then
        env.publicApi gstin = .error .gspServerError
      else ∀ cg, get_company_gstin settings = some cg →
        env.eInvoiceApi cg gstin = .error .gspServerError) :
    ((_get_gstin_info env settings cache now gstin none use_public_api).cache.expiryOf
        "gst_server_error" = some (now + 60))
    ∧ (∀ t, t < now + 60 →
        (_get_gstin_info env settings cache now gstin none use_public_api).cache.get_value
          "gst_server_error" t = true)
    ∧ (∀ env2 settings2 cache2 now2 gstin2 upa2, env2.valid_gstin gstin2 = true →
        cache2.get_value "gst_server_error" now2 = true →
        ((_get_gstin_info env2 settings2 cache2 now2 gstin2 none upa2).result = .ok none
          ∧ (_get_gstin_info env2 settings2 cache2 now2 gstin2 none upa2).apiCalls = [])) := by
  have hne : ("gst_server_error" : String) ≠ gstin := Ne.symm hg
  have h1 : (_get_gstin_info env settings cache now gstin none
      use_public_api).cache.expiryOf "gst_server_error" = some (now + 60) := by
    simp only [_get_gstin_info, hv, hcb, Bool.not_true, Bool.false_eq_true, if_false]
    cases hcg : get_company_gstin settings with
    | none =>
      rw [hcg] at herr
      simp only [Option.isNone_none, Bool.or_true, if_true] at herr
      cases use_public_api <;>
        simp [herr, cache_expiry_set_other _ gstin "gst_server_error" now 180 hne,
          cache_expiry_set_same]
    | some cg =>
      rw [hcg] at herr
      cases use_public_api with
      | true =>
        simp only [Bool.true_or, if_true] at herr
        simp [herr, cache_expiry_set_other _ gstin "gst_server_error" now 180 hne,
          cache_expiry_set_same]
      | false =>
        simp only [Option.isNone_some, Bool.false_or, Bool.false_eq_true, if_false] at herr
        simp [herr cg rfl, cache_expiry_set_other _ gstin "gst_server_error" now 180 hne,
          cache_expiry_set_same]
  refine ⟨h1, ?_, ?_⟩
  · intro t ht
    exact cache_get_value_of_expiry _ _ _ _ h1 ht
  · intro env2 settings2 cache2 now2 gstin2 upa2 hv2 hflag
    constructor <;> simp [_get_gstin_info, hv2, hflag]

/-- Witness for C7: a `GSPServerError` from the public API at time 0 sets
the circuit breaker until time 60. -/
theorem gsp_server_error_circuit_breaker_witness :
    (_get_gstin_info envGsp settingsPublic ⟨[]⟩ 0 "27AAACG2115R1ZN" none
        false).cache.expiryOf "gst_server_error" = some (0 + 60) :=
  (gsp_server_error_circuit_breaker envGsp settingsPublic ⟨[]⟩ 0 "27AAACG2115R1ZN"
    false (by decide) rfl rfl
    (show envGsp.publicApi "27AAACG2115R1ZN" = Except.error ApiErr.gspServerError
      from rfl)).1

/-- C10: with no pre-supplied response and a GSTIN passing validation,
`_get_gstin_info` sets the per-GSTIN suppression key with a 180-second
expiry on every path — success included; the key stays truthy for 180
seconds; and while it is truthy the refresh policy reports no refresh
needed for that GSTIN. -/
theorem gstin_suppression_flag_always_set (env : FetchEnv) (settings : GSTSettings)
    (cache : Cache) (now : Nat) (gstin : String) (use_public_api : Bool)
    (hv : env.valid_gstin gstin = true) :
    ((_get_gstin_info env settings cache now gstin none use_public_api).cache.expiryOf
        gstin = some (now + 180))
    ∧ (∀ t, t < now + 180 →
        (_get_gstin_info env settings cache now gstin none use_public_api).cache.get_value
          gstin t = true)
    ∧ (∀ settings2 cache2 nowS nowD gstin2 txd doc2,
        cache2.get_value gstin2 nowS = true →
        truthy (is_status_refresh_required settings2 cache2 nowS nowD gstin2 txd doc2)
          = false) := by
  have h1 : (_get_gstin_info env settings cache now gstin none
      use_public_api).cache.expiryOf gstin = some (now + 180) := by
    simp only [_get_gstin_info, hv, Bool.not_true, Bool.false_eq_true, if_false]
    by_cases hcb : cache.get_value "gst_server_error" now = true
    · simp [hcb, cache_expiry_set_same]
    · rw [Bool.not_eq_true] at hcb
      simp only [hcb, Bool.false_eq_true, if_false]
      cases hcg : get_company_gstin settings with
      | none =>
        cases use_public_api <;>
        · cases hp : env.publicApi gstin <;> simp [hp, cache_expiry_set_same]
      | some cg =>
        cases use_public_api with
        | true =>
          cases hp : env.publicApi gstin <;> simp [hp, cache_expiry_set_same]
        | false =>
          cases hp : env.eInvoiceApi cg gstin <;> simp [hp, cache_expiry_set_same]
  refine ⟨h1, ?_, ?_⟩
  · intro t ht
    exact cache_get_value_of_expiry _ _ _ _ h1 ht
  · intro settings2 cache2 nowS nowD gstin2 txd doc2 hflag
    simp [is_status_refresh_required, refreshSuppressed, hflag, truthy]

/-- Witness for C10: a successful public API fetch still sets the
per-GSTIN suppression key until time 100 + 180. -/
theorem gstin_suppression_flag_always_set_witness :
    (_get_gstin_info envOk settingsPublic ⟨[]⟩ 100 "27AAACG2115R1ZN" none
        false).cache.expiryOf "27AAACG2115R1ZN" = some (100 + 180) :=
  (gstin_suppression_flag_always_set envOk settingsPublic ⟨[]⟩ 100
    "27AAACG2115R1ZN" false rfl).1

/-- The tail of the transporter validation never changes the first
selected path. -/
theorem transporterTailCheck_paths_head (env : FetchEnv) (settings : GSTSettings)
    (ewb : EwbOracle) (w : World) (nowSec : Nat) (nowDate : Date) (tid : String)
    (g : GstinDoc) (p : TPath) (rest : List TPath) :
    (transporterTailCheck env settings ewb w nowSec nowDate tid g
      (p :: rest)).paths.head? = some p := by
  simp only [transporterTailCheck, List.cons_append]
  split
  · split
    · rfl
    · split
      · rfl
      · split <;> rfl
  · split <;> rfl

/-- C8: for a transporter id with no stored GSTIN record, the
transporter-specific (e-waybill) API path is selected first exactly when
the id's first two characters are "88" or the id fails GSTIN check-digit
validation; otherwise the general GSTIN API path is selected first. -/
theorem transporter_id_path_selection (env : FetchEnv) (settings : GSTSettings)
    (ewb : EwbOracle) (check_digit : String → Bool) (w : World) (nowSec : Nat)
    (nowDate : Date) (tid : String)
    (hne : tid ≠ "") (hdb : w.db.lookup tid = none) :
    ((validate_gst_transporter_id env settings ewb check_digit w nowSec nowDate
        tid).paths.head? = some TPath.transporterApi
      ↔ (tid.take 2 = "88" ∨ check_digit tid = false))
    ∧ ((validate_gst_transporter_id env settings ewb check_digit w nowSec nowDate
        tid).paths.head? = some TPath.gstinApi
      ↔ ¬(tid.take 2 = "88" ∨ check_digit tid = false)) := by
  have hneb : (tid == "") = false := beq_eq_false_iff_ne.mpr hne
  by_cases hcond : (tid.take 2 == "88" || !check_digit tid) = true
  · have hhead : (validate_gst_transporter_id env settings ewb check_digit w nowSec
        nowDate tid).paths.head? = some TPath.transporterApi := by
      simp only [validate_gst_transporter_id, hneb, Bool.false_eq_true, if_false,
        hdb, hcond, if_true]
      split
      · rfl
      · split
        · rfl
        · exact transporterTailCheck_paths_head env settings ewb _ nowSec nowDate
            tid _ .transporterApi []
    have hrhs : tid.take 2 = "88" ∨ check_digit tid = false := by
      simpa [Bool.or_eq_true, Bool.not_eq_true'] using hcond
    refine ⟨⟨fun _ => hrhs, fun _ => hhead⟩,
      ⟨fun hcontra => absurd (hhead.symm.trans hcontra) (by simp),
       fun hno => absurd hrhs hno⟩⟩
  · rw [Bool.not_eq_true] at hcond
    have hhead : (validate_gst_transporter_id env settings ewb check_digit w nowSec
        nowDate tid).paths.head? = some TPath.gstinApi := by
      simp only [validate_gst_transporter_id, hneb, Bool.false_eq_true, if_false,
        hdb, hcond]
      split
      · rfl
      · split
        · rfl
        · exact transporterTailCheck_paths_head env settings ewb _ nowSec nowDate
            tid _ .gstinApi []
    have hrhs : ¬(tid.take 2 = "88" ∨ check_digit tid = false) := by
      simp only [Bool.or_eq_false_iff] at hcond
      intro hh
      rcases hh with hh | hh
      · exact absurd (beq_iff_eq.mpr hh) (by simp [hcond.1])
      · exact absurd hh (by simpa using hcond.2)
    refine ⟨⟨fun hcontra => absurd (hhead.symm.trans hcontra) (by simp),
       fun h => absurd h hrhs⟩,
      ⟨fun _ => hrhs, fun _ => hhead⟩⟩

/-- Witness for C8: an id starting with "88" and no stored record selects
the transporter API path first. -/
theorem transporter_id_path_selection_witness :
    (validate_gst_transporter_id envOk settingsPublic ewbNone (fun _ => true)
      ⟨[], ⟨[]⟩⟩ 0 (Date.mk 2024 1 1) "88AABCM9407D1ZS").paths.head?
      = some TPath.transporterApi :=
  ((transporter_id_path_selection envOk settingsPublic ewbNone (fun _ => true)
    ⟨[], ⟨[]⟩⟩ 0 (Date.mk 2024 1 1) "88AABCM9407D1ZS" (by decide) rfl).1).mpr
    (Or.inl (by decide))

/-- C9 fails on the code: with a stored record whose status is "Inactive"
and no transporter status, and the e-waybill API disabled so the fallback
lookup returns nothing, `validate_gst_transporter_id` dereferences `None`
(`gstin.status`) and crashes with an `AttributeError` instead of emitting
the non-fatal warning. -/
theorem transporter_fallback_none_crash :
    (validate_gst_transporter_id envOk settingsPublic ewbNone (fun _ => true)
      ⟨[("05AAACG2115R1ZN", inactiveDoc)], ⟨[]⟩⟩ 0 (Date.mk 2024 1 1)
      "05AAACG2115R1ZN").outcome = TOutcome.attrErrorCrash := by
  rfl

end Gstin
